import Mathlib

/-!
Verification development for the trip-itinerary backend
(`backend-api/server.js` and its Cloud Run logging variant).

The file gives a shallow embedding of the request handlers and of the
AI-suggestion orchestration layer, and proves theorems checking the
natural-language specification claims against that embedding.
All definitions are translated from the JavaScript source; environment
interaction (database, document store, generative API) is made explicit
by passing states and outcome oracles as arguments.
-/

namespace TripBackend

/-! ## Generative-API layer

The server calls the generative API through `generateContentWithRetry`,
which classifies thrown errors by a case-insensitive pattern match on the
error message and retries only network-classified failures, sleeping
`500 * i` milliseconds after attempt `i`.
-/

/-- A resolved generative-API response as consumed by the server: the value
of `result.response.text()` and `candidates[0].finishReason`. -/
structure GenResult where
  text : String
  finishReason : Option String
  deriving DecidableEq, Repr

/-- Outcome of one `model.generateContent` call: either a resolved response
or a thrown error, identified by its message string. -/
inductive GenOutcome where
  | success (r : GenResult)
  | failure (msg : String)
  deriving DecidableEq, Repr

/-- Which of the two prompt texts a request carries: the long base prompt or
the shorter simplified prompt used by the final fallback attempt. -/
inductive PromptKind where
  | base
  | shorter
  deriving DecidableEq, Repr

/-- A generative request payload, abstracted to the two fields the control
flow depends on: the prompt used and `generationConfig.maxOutputTokens`. -/
structure GenPayload where
  prompt : PromptKind
  maxOutputTokens : Nat
  deriving DecidableEq, Repr

/-- Substring test on character lists (does `pat` occur contiguously in
the list?). -/
def charsContain (pat : List Char) : List Char → Bool
  | [] => pat.isEmpty
  | c :: rest => pat.isPrefixOf (c :: rest) || charsContain pat rest

/-- Case-insensitive substring test, modelling one case-insensitive regex
alternative applied to an error message. -/
def containsCI (hay pat : String) : Bool :=
  charsContain (pat.data.map Char.toLower) (hay.data.map Char.toLower)

/-- Alternatives of the regex in `generateContentWithRetry`:
`/fetch failed|ETIMEDOUT|ENETUNREACH|ECONNRESET|aborted/i`. -/
def bizNetworkPatterns : List String :=
  ["fetch failed", "ETIMEDOUT", "ENETUNREACH", "ECONNRESET", "aborted"]

/-- Network classification used by `generateContentWithRetry`: the error
message matches the network-error regex. -/
def isNetworkyBiz (msg : String) : Bool :=
  bizNetworkPatterns.any (fun p => containsCI msg p)

/-- Alternatives of the regex in `makeHardenedFetch`:
`/ECONNRESET|ETIMEDOUT|ENETUNREACH|EAI_AGAIN|fetch failed/i`; an
`AbortError` is network-classified there as well. -/
def fetchNetworkPatterns : List String :=
  ["ECONNRESET", "ETIMEDOUT", "ENETUNREACH", "EAI_AGAIN", "fetch failed"]

/-- Network classification used by `makeHardenedFetch`: abort, or message
matching its network-error regex. -/
def isNetworkyFetch (errName msg : String) : Bool :=
  errName == "AbortError" || fetchNetworkPatterns.any (fun p => containsCI msg p)

/-- Trace of one `generateContentWithRetry` invocation: its outcome
(resolved response or thrown error message), the number of provider calls
issued, and the list of backoff delays slept, in order and in
milliseconds. -/
structure RetryTrace where
  outcome : Except String GenResult
  calls : Nat
  delays : List Nat
  deriving Repr

/-- Loop body of `generateContentWithRetry`.  `remaining` counts loop
iterations left, `i` is the 1-based attempt number (the code sleeps
`500 * i` after a network-classified failure of attempt `i`, including the
last one), and `idx` indexes the provider oracle so that successive calls
can be given distinct outcomes.  A failure whose message is not
network-classified is rethrown immediately. -/
def gcwrGo (provider : Nat → GenPayload → GenOutcome) (payload : GenPayload) :
    Nat → Nat → Nat → Option String → RetryTrace
  | 0, _, _, lastErr => ⟨.error (lastErr.getD "undefined"), 0, []⟩
  | remaining + 1, i, idx, _ =>
    match provider idx payload with
    | .success r => ⟨.ok r, 1, []⟩
    | .failure m =>
      if isNetworkyBiz m then
        let rest := gcwrGo provider payload remaining (i + 1) (idx + 1) (some m)
        ⟨rest.outcome, rest.calls + 1, 500 * i :: rest.delays⟩
      else ⟨.error m, 1, []⟩

/-- Embedding of `generateContentWithRetry(model, payload, tries)`: calls
the provider starting at call index `startIdx`, retrying only
network-classified failures, at most `tries` calls in total. -/
def generateContentWithRetry (provider : Nat → GenPayload → GenOutcome)
    (payload : GenPayload) (startIdx tries : Nat) : RetryTrace :=
  gcwrGo provider payload tries 1 startIdx none

/-- Whitespace stripping on a character list, from the front and the
back. -/
def trimChars (l : List Char) : List Char :=
  ((l.dropWhile Char.isWhitespace).reverse.dropWhile Char.isWhitespace).reverse

/-- JavaScript `String.prototype.trim()` as applied to the response text. -/
def jsTrim (s : String) : String :=
  ⟨trimChars s.data⟩

/-- One element of `meta.attempts` recorded by `getGeminiSuggestion`:
sequence number, finish reason, and whether trimmed text was produced
(usage metadata is opaque to the control flow and omitted). -/
structure AttemptRec where
  no : Nat
  finishReason : Option String
  hadText : Bool
  deriving DecidableEq, Repr

/-- The `meta` object built by `getGeminiSuggestion`. -/
structure GeminiMeta where
  ok : Bool
  attempts : List AttemptRec
  finalFinishReason : Option String
  model : Option String
  error : Option String
  reason : Option String
  deriving DecidableEq, Repr

/-- Return value of `getGeminiSuggestion`: `{ text, meta }`, with `text`
null (`none`) when no non-empty suggestion was produced. -/
structure Suggestion where
  text : Option String
  meta : GeminiMeta
  deriving DecidableEq, Repr

/-- Default of `GEMINI_MAX_TOKENS` (primary output-token cap). -/
def MAX_TOKENS_PRIMARY : Nat := 640

/-- Default of `GEMINI_MAX_TOKENS_RETRY` (larger retry cap). -/
def MAX_TOKENS_RETRY : Nat := 1024

/-- Default of `GEMINI_SOFT_TIMEOUT_MS` (foreground time budget). -/
def SOFT_TIMEOUT_MS : Nat := 4000

/-- Embedding of `getGeminiSuggestion(itineraryData)`, additionally
returning the trace of payloads issued to the provider, in order.
`ready` is the result of `ensureGeminiReady()`; `provider` maps the
call index and payload to that call outcome; `primaryCap` and
`retryCap` are the two `maxOutputTokens` tunables; `modelName` is
`activeGeminiModel`.  Mirrors the source control flow: attempt 1 with the
base prompt and primary cap; attempt 2 (same prompt, retry cap) iff the
trimmed text is empty or the finish reason is `MAX_TOKENS`; attempt 3
(shorter prompt, retry cap) iff the text is still empty; any error
escaping `generateContentWithRetry` is caught, summarized into
`meta.error`, and yields null text. -/
def getGeminiSuggestionTraced (ready : Bool)
    (provider : Nat → GenPayload → GenOutcome)
    (primaryCap retryCap : Nat) (modelName : Option String) :
    Suggestion × List GenPayload :=
  if !ready then
    (⟨none, ⟨false, [], none, none, none, some "MODEL_NOT_READY"⟩⟩, [])
  else
    let meta0 : GeminiMeta := ⟨false, [], none, modelName, none, none⟩
    let p1 : GenPayload := ⟨.base, primaryCap⟩
    let t1 := generateContentWithRetry provider p1 0 1
    match t1.outcome with
    | .error m => (⟨none, { meta0 with error := some m }⟩, [p1])
    | .ok r1 =>
      let text1 := jsTrim r1.text
      let a1 : AttemptRec := ⟨1, r1.finishReason, text1 != ""⟩
      if text1 == "" || r1.finishReason == some "MAX_TOKENS" then
        let p2 : GenPayload := ⟨.base, retryCap⟩
        let t2 := generateContentWithRetry provider p2 1 1
        match t2.outcome with
        | .error m => (⟨none, { meta0 with attempts := [a1], error := some m }⟩, [p1, p2])
        | .ok r2 =>
          let text2 := jsTrim r2.text
          let a2 : AttemptRec := ⟨2, r2.finishReason, text2 != ""⟩
          if text2 == "" then
            let p3 : GenPayload := ⟨.shorter, retryCap⟩
            let t3 := generateContentWithRetry provider p3 2 1
            match t3.outcome with
            | .error m =>
              (⟨none, { meta0 with attempts := [a1, a2], error := some m }⟩, [p1, p2, p3])
            | .ok r3 =>
              let text3 := jsTrim r3.text
              let a3 : AttemptRec := ⟨3, r3.finishReason, text3 != ""⟩
              (⟨if text3 == "" then none else some text3,
                { meta0 with
                  attempts := [a1, a2, a3]
                  finalFinishReason := r3.finishReason
                  ok := text3 != "" }⟩, [p1, p2, p3])
          else
            (⟨some text2,
              { meta0 with
                attempts := [a1, a2]
                finalFinishReason := r2.finishReason
                ok := true }⟩, [p1, p2])
      else
        (⟨some text1,
          { meta0 with
            attempts := [a1]
            finalFinishReason := r1.finishReason
            ok := true }⟩, [p1])

/-- The value the server actually uses: `getGeminiSuggestionTraced` without
the call trace. -/
def getGeminiSuggestion (ready : Bool) (provider : Nat → GenPayload → GenOutcome)
    (primaryCap retryCap : Nat) (modelName : Option String) : Suggestion :=
  (getGeminiSuggestionTraced ready provider primaryCap retryCap modelName).1

/-- Mock provider that answers every call with empty text and a
`MAX_TOKENS` finish reason. -/
def providerEmptyMaxTokens : Nat → GenPayload → GenOutcome :=
  fun _ _ => .success ⟨"", some "MAX_TOKENS"⟩

/-- Terminal-status classification performed by the itinerary-creation
handler on a resolved foreground result:
`ai_status = suggestion ? 'ok' : (aiResult?.meta?.error ? 'error' : 'no_suggestion')`. -/
def classifyAiStatus (s : Suggestion) : String :=
  match s.text with
  | some _ => "ok"
  | none => if s.meta.error.isSome then "error" else "no_suggestion"

/-! ## Relational store (MySQL `travellers` / `itineraries`)

Dates are kept as the canonical `YYYY-MM-DD` strings the client sends;
for `DATE` values in this form, MySQL ordering agrees with lexicographic
string ordering.  JavaScript falsiness of a JSON string field is modelled
by the empty string (a missing field and `""` are both falsy). -/

/-- A row of the `travellers` table. -/
structure Traveller where
  id : Nat
  email : String
  name : String
  deriving DecidableEq, Repr

/-- A row of the `itineraries` table. -/
structure Itinerary where
  id : Nat
  traveller_id : Nat
  title : String
  destination : String
  start_date : String
  end_date : String
  short_description : String
  detail_description : String
  deriving DecidableEq, Repr

/-- State of the relational database; `nextId` is the auto-increment
counter producing `result.insertId` for the next itinerary insert. -/
structure RelState where
  travellers : List Traveller
  itineraries : List Itinerary
  nextId : Nat
  deriving DecidableEq, Repr

/-- Request body shared by itinerary create and update; absent JSON fields
are the empty string. -/
structure ItineraryBody where
  title : String
  destination : String
  start_date : String
  end_date : String
  short_description : String
  detail_description : String
  deriving DecidableEq, Repr

/-- Validation guard of both `POST /api/itineraries` and
`PUT /api/itineraries/:id`:
`!title || !destination || !start_date || !end_date ||
 (short_description && short_description.length > 80)`. -/
def itineraryBodyInvalid (b : ItineraryBody) : Bool :=
  b.title == "" || b.destination == "" || b.start_date == "" || b.end_date == "" ||
    (b.short_description != "" && decide (b.short_description.length > 80))

/-- Result rows of the ownership query used by update and delete:
`SELECT i.id FROM itineraries i JOIN travellers t ON i.traveller_id = t.id
 WHERE i.id = ? AND t.email = ?`. -/
def ownershipRows (st : RelState) (id : Nat) (email : String) : List Nat :=
  (st.itineraries.filter (fun i =>
    i.id == id && st.travellers.any (fun t => t.id == i.traveller_id && t.email == email))).map
    (fun i => i.id)

/-- Field assignment performed by the `UPDATE itineraries SET ...` row
write (`short_description || ''` and `detail_description || ''` are the
identity under the empty-string encoding of falsiness). -/
def applyUpdate (i : Itinerary) (b : ItineraryBody) : Itinerary :=
  { i with
    title := b.title
    destination := b.destination
    start_date := b.start_date
    end_date := b.end_date
    short_description := b.short_description
    detail_description := b.detail_description }

/-- A plain HTTP response carrying only a status code and a message. -/
structure SimpleResp where
  status : Nat
  message : String
  deriving DecidableEq, Repr

/-- Embedding of `PUT /api/itineraries/:id` for an authenticated caller:
validation, ownership check against the join, then the row update.
`affectedRows` of a MySQL `UPDATE` counts rows whose values actually
changed, which the handler maps to 404 (`no changes made`). -/
def putItinerary (st : RelState) (callerEmail : String) (id : Nat)
    (b : ItineraryBody) : SimpleResp × RelState :=
  if itineraryBodyInvalid b then
    (⟨400, "Missing required fields or invalid short description."⟩, st)
  else if (ownershipRows st id callerEmail).isEmpty then
    (⟨403, "You are not the owner of this itinerary."⟩, st)
  else
    let affected := st.itineraries.countP (fun i => i.id == id && applyUpdate i b != i)
    let st1 : RelState :=
      { st with itineraries := st.itineraries.map (fun i => if i.id == id then applyUpdate i b else i) }
    if affected == 0 then (⟨404, "Itinerary not found or no changes made."⟩, st1)
    else (⟨200, s!"Itinerary ID {id} updated successfully."⟩, st1)

/-- Embedding of `DELETE /api/itineraries/:id` for an authenticated caller:
ownership check, row delete, then the fire-and-forget Firestore cleanup,
returned as the scheduled cleanup key (`some id`) to be applied to the
document store after the response. -/
def deleteItinerary (st : RelState) (callerEmail : String) (id : Nat) :
    SimpleResp × RelState × Option String :=
  if (ownershipRows st id callerEmail).isEmpty then
    (⟨403, "You are not authorized to delete this itinerary."⟩, st, none)
  else
    let affected := st.itineraries.countP (fun i => i.id == id)
    let st1 : RelState := { st with itineraries := st.itineraries.filter (fun i => i.id != id) }
    if affected == 0 then (⟨404, "Itinerary not found."⟩, st1, none)
    else (⟨200, s!"Itinerary ID {id} deleted successfully."⟩, st1, some (toString id))

/-! ## Document store (Firestore `likes`, `comments`, `aiSuggestions`) -/

/-- A like document `likes/{itineraryId}/userLikes/{userEmail}`. -/
structure LikeEntry where
  itin : String
  email : String
  liked_at : Nat
  deriving DecidableEq, Repr

/-- A comment document `comments/{itineraryId}/items/{commentId}`. -/
structure CommentEntry where
  itin : String
  commentId : String
  email : String
  text : String
  created_at : Nat
  deriving DecidableEq, Repr

/-- An AI-suggestion record `aiSuggestions/{itineraryId}` (the
`createdAt` server timestamp is opaque and omitted). -/
structure AiDoc where
  itineraryId : String
  model : Option String
  status : String
  finishReason : Option String
  attempts : List AttemptRec
  suggestion : Option String
  deriving DecidableEq, Repr

/-- State of the document store, flattened: one entry per document. -/
structure FsState where
  likes : List LikeEntry
  comments : List CommentEntry
  aiSuggestions : List (String × AiDoc)
  deriving DecidableEq, Repr

/-- Key predicate for the like document of `email` under `itineraryId`. -/
def likeKey (itineraryId email : String) (e : LikeEntry) : Bool :=
  e.itin == itineraryId && e.email == email

/-- Overwrite-or-create of `aiSuggestions/{itineraryId}` (`docRef.set`). -/
def fsSetAi (fs : FsState) (itineraryId : String) (doc : AiDoc) : FsState :=
  { fs with
    aiSuggestions := (itineraryId, doc) :: fs.aiSuggestions.filter (fun kv => kv.1 != itineraryId) }

/-- Embedding of `deleteFirestoreData(itineraryId)`: `recursiveDelete` of
the `likes` and `comments` parent documents for that itinerary.  The
`aiSuggestions` document is not touched by this cleanup. -/
def deleteFirestoreData (fs : FsState) (itineraryId : String) : FsState :=
  { fs with
    likes := fs.likes.filter (fun e => e.itin != itineraryId)
    comments := fs.comments.filter (fun c => c.itin != itineraryId) }

/-- Response of the like-toggle endpoint: status plus the `liked` flag
(absent on the 400 path). -/
structure ToggleResp where
  status : Nat
  liked : Option Bool
  deriving DecidableEq, Repr

/-- Embedding of `POST /api/itineraries/:id/like/toggle` for an
authenticated caller: missing email yields 400; an existing like
document is deleted (`liked: false`); otherwise the document is created
with `liked_at = Date.now()` (`liked: true`). -/
def toggleLike (fs : FsState) (itineraryId email : String) (now : Nat) :
    ToggleResp × FsState :=
  if email == "" then (⟨400, none⟩, fs)
  else if fs.likes.any (likeKey itineraryId email) then
    (⟨200, some false⟩, { fs with likes := fs.likes.filter (fun e => !likeKey itineraryId email e) })
  else
    (⟨200, some true⟩, { fs with likes := ⟨itineraryId, email, now⟩ :: fs.likes })

/-- Embedding of `GET /api/itineraries/:id/like/count`: the size of the
`userLikes` sub-collection of the itinerary. -/
def likeCount (fs : FsState) (itineraryId : String) : Nat :=
  (fs.likes.filter (fun e => e.itin == itineraryId)).length

/-! ## Itinerary creation (`POST /api/itineraries`) -/

/-- An error raised by the database driver, as observed by a handler
(`e?.code` and `e?.message`; stacks are never inspected). -/
structure DbError where
  code : Option String
  message : String
  deriving DecidableEq, Repr

/-- JavaScript `a || b` on an optional string against a fallback:
`undefined` and `""` are falsy. -/
def jsOrStr (a : Option String) (b : String) : String :=
  match a with
  | some s => if s == "" then b else s
  | none => b

/-- Outcome of the soft-timeout race `runWithSoftTimeout(getGeminiSuggestion(...))`
together with the subsequent foreground Firestore write: either the timer
won (`soft`), or the orchestrator resolved to `s` and the foreground
`aiSuggestions` write then succeeded (`writeOk = true`) or threw
(`writeOk = false`, landing in the foreground catch). -/
inductive FgOutcome where
  | soft
  | resolved (s : Suggestion) (writeOk : Bool)
  deriving DecidableEq, Repr

/-- Response of `POST /api/itineraries`. -/
structure CreateResp where
  status : Nat
  message : String
  id : Option Nat
  suggestion : Option String
  ai_status : Option String
  ai_log_id : Option String
  deriving DecidableEq, Repr

/-- The `aiSuggestions` document written for itinerary `itinId` from a
resolved orchestrator result (`model: meta.model || activeGeminiModel || null`). -/
def aiDocFor (itinId : String) (activeModel : Option String) (status : String)
    (s : Suggestion) : AiDoc :=
  { itineraryId := itinId
    model := match s.meta.model with | some m => some m | none => activeModel
    status := status
    finishReason := s.meta.finalFinishReason
    attempts := s.meta.attempts
    suggestion := s.text }

/-- Embedding of `POST /api/itineraries` for an authenticated caller.
Validation happens before any database access; then the traveller lookup
by the token email (404 when absent); then the row insert, whose failure
(`insertErr = some e`) lands in the outer catch and yields the generic
500.  The foreground AI block never fails the request: its outcome `fg`
only determines `suggestion`, `ai_status`, `ai_log_id` and the foreground
`aiSuggestions` write.  The returned flag records whether the
fire-and-forget background AI task was scheduled. -/
def postItineraries (st : RelState) (fs : FsState) (callerEmail : String)
    (b : ItineraryBody) (fg : FgOutcome) (activeModel : Option String)
    (insertErr : Option DbError) : CreateResp × RelState × FsState × Bool :=
  if itineraryBodyInvalid b then
    (⟨400, "Missing required fields or short description too long.", none, none, none, none⟩,
      st, fs, false)
  else
    match (st.travellers.filter (fun t => t.email == callerEmail)).head? with
    | none =>
      (⟨404, "Traveller not found with this email.", none, none, none, none⟩, st, fs, false)
    | some trav =>
      match insertErr with
      | some _ =>
        (⟨500, "Server error during itinerary creation.", none, none, none, none⟩, st, fs, false)
      | none =>
        let newId := st.nextId
        let row : Itinerary :=
          ⟨newId, trav.id, b.title, b.destination, b.start_date, b.end_date,
            b.short_description, b.detail_description⟩
        let st1 : RelState :=
          { st with itineraries := st.itineraries ++ [row], nextId := newId + 1 }
        let itinIdStr := toString newId
        let fgState : Option String × String × Option String × FsState :=
          match fg with
          | .soft => (none, "queued", none, fs)
          | .resolved s true =>
            let status := classifyAiStatus s
            (s.text, status, some itinIdStr, fsSetAi fs itinIdStr (aiDocFor itinIdStr activeModel status s))
          | .resolved s false => (s.text, "error", none, fs)
        let suggestion := fgState.1
        let ai_status := fgState.2.1
        let ai_log_id := fgState.2.2.1
        let fs1 := fgState.2.2.2
        let bgScheduled :=
          suggestion.isNone || ai_status == "no_suggestion" || ai_status == "queued" ||
            ai_status == "error"
        (⟨201, "Itinerary created successfully.", some newId, suggestion, some ai_status, ai_log_id⟩,
          st1, fs1, bgScheduled)

/-! ## Public listing (`GET /api/itineraries/by-email/:email`) and health -/

/-- A row of the by-email listing response (dates still raw). -/
structure ListRow where
  id : Nat
  title : String
  start_date : String
  end_date : String
  short_description : String
  traveller_email : String
  deriving DecidableEq, Repr

/-- Join produced by the listing SQL.  The statement text is
`SELECT i.id, i.title, i.start_date, i.end_date, i.short_description,
 t.email AS traveller_email FROM itineraries i JOIN travellers t ON
 i.traveller_id = t.id ORDER BY i.start_date DESC`: it contains no
placeholder, so the `:email` route parameter never reaches the query. -/
def byEmailJoinRows (st : RelState) : List ListRow :=
  st.itineraries.flatMap (fun i =>
    (st.travellers.filter (fun t => t.id == i.traveller_id)).map (fun t =>
      ⟨i.id, i.title, i.start_date, i.end_date, i.short_description, t.email⟩))

/-- The listing rows after `ORDER BY i.start_date DESC`. -/
def byEmailSorted (st : RelState) : List ListRow :=
  (byEmailJoinRows st).mergeSort (fun a b => decide (b.start_date ≤ a.start_date))

/-- Embedding of `formatDate` on a canonical `YYYY-MM-DD` date under a UTC
server clock: year, zero-padded month and day joined by slashes; a falsy
input maps to null. -/
def formatDate (s : String) : Option String :=
  if s == "" then none
  else
    match s.splitOn "-" with
    | [y, m, d] => some (y ++ "/" ++ m.leftpad 2 '0' ++ "/" ++ d.leftpad 2 '0')
    | _ => some s

/-- Per-row date reformatting applied by the handler before responding. -/
def formatListRow (r : ListRow) : ListRow :=
  { r with
    start_date := (formatDate r.start_date).getD ""
    end_date := (formatDate r.end_date).getD "" }

/-- Embedding of `GET /api/itineraries/by-email/:email`: the `email`
route parameter is received but the query result does not depend on it. -/
def getItinerariesByEmail (st : RelState) (email : String) : List ListRow :=
  (byEmailSorted st).map formatListRow

/-- Response of `GET /health/db` (Cloud Run logging variant of the
server): status, the `ok` flag on success, and the `error` field on
failure. -/
structure HealthDbResp where
  status : Nat
  ok : Option Bool
  error : Option String
  deriving DecidableEq, Repr

/-- Embedding of `app.get('/health/db')`: on success of
`SELECT 1 AS ok` it answers `{ ok: r[0].ok === 1 }`; on a database error
it answers status 500 with body `{ error: e?.code || e?.message }`. -/
def healthDbHandler (q : Except DbError Nat) : HealthDbResp :=
  match q with
  | .ok v => ⟨200, some (v == 1), none⟩
  | .error e => ⟨500, none, some (jsOrStr e.code e.message)⟩

/-! ## Handler catch blocks and error summaries -/

/-- An error object caught by a handler catch block: the fields handlers
may read (`message`, `name`, `status`, `response.status`, `code`,
`cause.message`), the result of `String(err)`, and the stack, which no
handler ever reads into a response. -/
structure CaughtError where
  message : Option String
  stringified : String
  name : Option String
  status : Option Nat
  responseStatus : Option Nat
  code : Option String
  causeMessage : Option String
  stack : Option String
  deriving DecidableEq, Repr

/-- JavaScript `a || b` on optional numbers (`0` is falsy, as for HTTP
status fields). -/
def jsOrNat (a b : Option Nat) : Option Nat :=
  match a with
  | some n => if n == 0 then b else some n
  | none => b

/-- The summary object `{ name, status, code, message, cause }` built by
`summarizeGeminiError` — it has no stack field. -/
structure ErrSummary where
  name : String
  status : Option Nat
  code : Option String
  message : String
  cause : Option String
  deriving DecidableEq, Repr

/-- Embedding of `summarizeGeminiError(err)`:
`msg = err?.message || String(err)`, `name = err?.name || 'Error'`,
`status = err?.status || err?.response?.status`, `code = err?.code`,
`cause = err?.cause?.message`.  The stack is not read. -/
def summarizeGeminiError (e : CaughtError) : ErrSummary :=
  { name := jsOrStr e.name "Error"
    status := jsOrNat e.status e.responseStatus
    code := e.code
    message := jsOrStr e.message e.stringified
    cause := e.causeMessage }

/-- Response of the catch path of `GET /api/diagnostics/ai`. -/
structure DiagResp where
  status : Nat
  ok : Bool
  reason : Option String
  error : Option ErrSummary
  deriving DecidableEq, Repr

/-- Embedding of the catch block of `GET /api/diagnostics/ai`:
`res.status(200).send({ ok: false, reason: 'GENERATION_ERROR',
error: summarizeGeminiError(err) })` — the summarized error detail is
sent to the client, with status 200. -/
def diagnosticsAiCatch (e : CaughtError) : DiagResp :=
  ⟨200, false, some "GENERATION_ERROR", some (summarizeGeminiError e)⟩

/-- The core API request handlers whose catch blocks absorb unclassified
server, database, and storage errors, in source order (itinerary CRUD,
AI read-back, likes, comments, traveller ensure, avatar upload). -/
inductive HandlerRoute where
  | createItinerary
  | listByEmail
  | itineraryDetail
  | readAiRecord
  | updateItinerary
  | removeItinerary
  | likeToggle
  | likeCountGet
  | likeListGet
  | commentsGet
  | commentsAdd
  | commentsRemove
  | travellersEnsure
  | avatarUpload
  deriving DecidableEq, Repr

/-- The fixed message each handler catch block sends, verbatim from the
source. -/
def catchMessage : HandlerRoute → String
  | .createItinerary => "Server error during itinerary creation."
  | .listByEmail => "Server error retrieving itineraries by email."
  | .itineraryDetail => "Server error retrieving itinerary detail."
  | .readAiRecord => "Failed to load AI record."
  | .updateItinerary => "Server error during itinerary update."
  | .removeItinerary => "Server error during itinerary deletion."
  | .likeToggle => "Like failed"
  | .likeCountGet => "Failed to get like count"
  | .likeListGet => "Failed to get like list"
  | .commentsGet => "Failed to load comments"
  | .commentsAdd => "Failed to add comment"
  | .commentsRemove => "Failed to delete comment"
  | .travellersEnsure => "Server error ensuring traveller"
  | .avatarUpload => "Failed to upload avatar."

/-- Embedding of the catch block every core handler shares:
`catch (err) { console.error(...); res.status(500).send({ message: <fixed> }); }`.
The caught error is only logged: the response is built from the route's
fixed message alone and no field of the error reaches it. -/
def handlerCatchResponse (route : HandlerRoute) (_e : CaughtError) : SimpleResp :=
  ⟨500, catchMessage route⟩

/-! ## Theorems for the specification claims -/

/-- C4: when the generative provider answers every call with empty text and
finish reason `MAX_TOKENS`, `getGeminiSuggestion` records exactly 3
attempts in its meta and returns null text with no error recorded, so the
classified terminal status is `no_suggestion` — not `ok` and not
`error`. -/
theorem C4_always_empty_max_tokens_gives_no_suggestion :
    (getGeminiSuggestion true providerEmptyMaxTokens MAX_TOKENS_PRIMARY MAX_TOKENS_RETRY
        (some "gemini-2.5-flash")).meta.attempts.length = 3 ∧
    (getGeminiSuggestion true providerEmptyMaxTokens MAX_TOKENS_PRIMARY MAX_TOKENS_RETRY
        (some "gemini-2.5-flash")).text = none ∧
    (getGeminiSuggestion true providerEmptyMaxTokens MAX_TOKENS_PRIMARY MAX_TOKENS_RETRY
        (some "gemini-2.5-flash")).meta.error = none ∧
    classifyAiStatus (getGeminiSuggestion true providerEmptyMaxTokens MAX_TOKENS_PRIMARY
        MAX_TOKENS_RETRY (some "gemini-2.5-flash")) = "no_suggestion" ∧
    classifyAiStatus (getGeminiSuggestion true providerEmptyMaxTokens MAX_TOKENS_PRIMARY
        MAX_TOKENS_RETRY (some "gemini-2.5-flash")) ≠ "ok" ∧
    classifyAiStatus (getGeminiSuggestion true providerEmptyMaxTokens MAX_TOKENS_PRIMARY
        MAX_TOKENS_RETRY (some "gemini-2.5-flash")) ≠ "error" := by
  decide

/-- C2: a create request whose `short_description` is longer than 80
characters is answered with 400 by the validation guard, which runs before
any database access: the relational and the document state are unchanged,
for every foreground-AI outcome and even for a failing insert. -/
theorem C2_long_short_description_rejected
    (st : RelState) (fs : FsState) (callerEmail : String) (b : ItineraryBody)
    (fg : FgOutcome) (activeModel : Option String) (insertErr : Option DbError)
    (hlen : 80 < b.short_description.length) :
    (postItineraries st fs callerEmail b fg activeModel insertErr).1.status = 400 ∧
    (postItineraries st fs callerEmail b fg activeModel insertErr).2.1 = st ∧
    (postItineraries st fs callerEmail b fg activeModel insertErr).2.2.1 = fs := by
  have hne : (b.short_description != "") = true := by
    simp only [bne_iff_ne, ne_eq]
    intro h
    rw [h] at hlen
    simp at hlen
  have hval : itineraryBodyInvalid b = true := by
    simp [itineraryBodyInvalid, hne, hlen]
  simp [postItineraries, hval]

/-- Witness for C2 at a concrete 81-character description. -/
theorem C2_long_short_description_rejected_witness :
    80 < ("abcdefghijabcdefghijabcdefghijabcdefghijabcdefghijabcdefghijabcdefghijabcdefghij8" : String).length ∧
    (postItineraries ⟨[⟨1, "u@example.com", "U"⟩], [], 1⟩ ⟨[], [], []⟩ "u@example.com"
        ⟨"Trip", "Rome", "2024-05-01", "2024-05-05",
          "abcdefghijabcdefghijabcdefghijabcdefghijabcdefghijabcdefghijabcdefghijabcdefghij8", ""⟩
        .soft none none).1.status = 400 :=
  ⟨by decide,
    (C2_long_short_description_rejected ⟨[⟨1, "u@example.com", "U"⟩], [], 1⟩ ⟨[], [], []⟩
      "u@example.com"
      ⟨"Trip", "Rome", "2024-05-01", "2024-05-05",
        "abcdefghijabcdefghijabcdefghijabcdefghijabcdefghijabcdefghijabcdefghijabcdefghij8", ""⟩
      .soft none none (by decide)).1⟩

/-- C10: the by-email listing endpoint does not filter by its email path
parameter: for every database state the response is identical for any two
parameter values, and it is the full itinerary-traveller join (every
traveller's itineraries with the owner's email), ordered by `start_date`
descending. -/
theorem C10_by_email_listing_ignores_email (st : RelState) (email1 email2 : String) :
    getItinerariesByEmail st email1 = getItinerariesByEmail st email2 ∧
    (byEmailSorted st).Perm (byEmailJoinRows st) ∧
    (byEmailSorted st).Pairwise (fun a b => b.start_date ≤ a.start_date) ∧
    getItinerariesByEmail st email1 = (byEmailSorted st).map formatListRow := by
  refine ⟨rfl, List.mergeSort_perm _ _, ?_, rfl⟩
  have h := @List.sorted_mergeSort ListRow
    (fun a b : ListRow => decide (b.start_date ≤ a.start_date))
    (fun a b c hab hbc => by
      simp only [decide_eq_true_eq] at *
      exact le_trans hbc hab)
    (fun a b => by
      simp only [Bool.or_eq_true, decide_eq_true_eq]
      exact le_total b.start_date a.start_date)
    (byEmailJoinRows st)
  exact h.imp (fun hb => of_decide_eq_true hb)

/-- Helper: a Boolean count splits along a second predicate. -/
theorem countP_and_split {α : Type} (l : List α) (p q : α → Bool) :
    l.countP p = l.countP (fun a => p a && q a) + l.countP (fun a => p a && !q a) := by
  induction l with
  | nil => simp
  | cons a l ih =>
    by_cases hp : p a <;> by_cases hq : q a <;>
      simp [List.countP_cons, hp, hq, ih] <;> omega

/-- C7: two consecutive like toggles by the same authenticated user, with
no interleaving operation, restore the prior like state: the like document
is present afterwards iff it was present before, the like count of the
itinerary is unchanged, and the two responses report opposite `liked`
values.  The hypothesis `hdup` is the document-store invariant that a
document key is unique. -/
theorem C7_toggle_twice_restores (fs : FsState) (itineraryId email : String)
    (t1 t2 : Nat) (hemail : email ≠ "")
    (hdup : fs.likes.countP (likeKey itineraryId email) ≤ 1) :
    ((toggleLike (toggleLike fs itineraryId email t1).2 itineraryId email t2).2.likes.any
        (likeKey itineraryId email)) =
      (fs.likes.any (likeKey itineraryId email)) ∧
    likeCount (toggleLike (toggleLike fs itineraryId email t1).2 itineraryId email t2).2
        itineraryId = likeCount fs itineraryId ∧
    (toggleLike fs itineraryId email t1).1.status = 200 ∧
    (toggleLike (toggleLike fs itineraryId email t1).2 itineraryId email t2).1.status = 200 ∧
    (toggleLike fs itineraryId email t1).1.liked =
      some (!(fs.likes.any (likeKey itineraryId email))) ∧
    (toggleLike (toggleLike fs itineraryId email t1).2 itineraryId email t2).1.liked =
      some (fs.likes.any (likeKey itineraryId email)) := by
  have hemailb : (email == "") = false := by
    simpa [beq_eq_false_iff_ne] using hemail
  by_cases hpres : fs.likes.any (likeKey itineraryId email)
  · -- present: first toggle deletes, second recreates
    have h1 : toggleLike fs itineraryId email t1 =
        (⟨200, some false⟩,
          { fs with likes := fs.likes.filter (fun e => !likeKey itineraryId email e) }) := by
      simp [toggleLike, hemailb, hpres]
    have hnone : (fs.likes.filter (fun e => !likeKey itineraryId email e)).any
        (likeKey itineraryId email) = false := by
      simp only [List.any_eq_false]
      intro e he
      have := List.of_mem_filter he
      simpa using this
    have h2 : toggleLike (toggleLike fs itineraryId email t1).2 itineraryId email t2 =
        (⟨200, some true⟩,
          { fs with likes := ⟨itineraryId, email, t2⟩ ::
              fs.likes.filter (fun e => !likeKey itineraryId email e) }) := by
      rw [h1]
      simp [toggleLike, hemailb, hnone]
    refine ⟨?_, ?_, ?_, ?_, ?_, ?_⟩
    · rw [h2]
      simp [hpres, likeKey]
    · rw [h2]
      simp only [likeCount]
      have hone : fs.likes.countP (likeKey itineraryId email) = 1 := by
        have hpos : 0 < fs.likes.countP (likeKey itineraryId email) := by
          rw [List.countP_pos_iff]
          simpa [List.any_eq_true] using hpres
        omega
      have hsplit := countP_and_split fs.likes (fun e => e.itin == itineraryId)
        (likeKey itineraryId email)
      have hkey : fs.likes.countP
          (fun e => (e.itin == itineraryId) && likeKey itineraryId email e) =
          fs.likes.countP (likeKey itineraryId email) := by
        apply List.countP_congr
        intro e _
        unfold likeKey
        cases h : e.itin == itineraryId <;> simp [h]
      simp only [← List.countP_eq_length_filter, List.countP_cons, List.countP_filter]
      simp only [likeKey] at hkey hsplit ⊢
      simp only [beq_self_eq_true, if_pos]
      omega
    · rw [h1]
    · rw [h2]
    · simp [h1, hpres]
    · simp [h2, hpres]
  · -- absent: first toggle creates, second deletes it again
    have hpresf : fs.likes.any (likeKey itineraryId email) = false := by
      simpa using hpres
    have h1 : toggleLike fs itineraryId email t1 =
        (⟨200, some true⟩, { fs with likes := ⟨itineraryId, email, t1⟩ :: fs.likes }) := by
      simp [toggleLike, hemailb, hpresf]
    have hself : likeKey itineraryId email ⟨itineraryId, email, t1⟩ = true := by
      simp [likeKey]
    have hfilter : (⟨itineraryId, email, t1⟩ :: fs.likes).filter
        (fun e => !likeKey itineraryId email e) = fs.likes := by
      rw [List.filter_cons]
      simp only [hself, Bool.not_true, if_neg Bool.false_ne_true]
      rw [List.filter_eq_self]
      intro e he
      have : likeKey itineraryId email e = false := by
        have := List.any_eq_false.mp hpresf e he
        simpa using this
      simp [this]
    have h2 : toggleLike (toggleLike fs itineraryId email t1).2 itineraryId email t2 =
        (⟨200, some false⟩, { fs with likes := fs.likes }) := by
      rw [h1]
      simp only [toggleLike, hemailb, Bool.false_eq_true, if_false, List.any_cons, hself,
        Bool.true_or, if_pos, hfilter]
    refine ⟨?_, ?_, ?_, ?_, ?_, ?_⟩
    · rw [h2]
    · rw [h2]
    · rw [h1]
    · rw [h2]
    · simp [h1, hpresf]
    · simp [h2, hpresf]

/-- Witness for C7 at a concrete store holding one like by another user. -/
theorem C7_toggle_twice_restores_witness :
    ("alice@example.com" : String) ≠ "" ∧
    (FsState.likes ⟨[⟨"7", "bob@example.com", 11⟩], [], []⟩).countP
      (likeKey "7" "alice@example.com") ≤ 1 ∧
    likeCount (toggleLike (toggleLike ⟨[⟨"7", "bob@example.com", 11⟩], [], []⟩ "7"
        "alice@example.com" 20).2 "7" "alice@example.com" 21).2 "7" =
      likeCount ⟨[⟨"7", "bob@example.com", 11⟩], [], []⟩ "7" :=
  ⟨by decide, by decide,
    (C7_toggle_twice_restores ⟨[⟨"7", "bob@example.com", 11⟩], [], []⟩ "7"
      "alice@example.com" 20 21 (by decide) (by decide)).2.1⟩

/-- Helper: the ownership join returns nothing when the row carrying the
requested id is owned by a traveller whose email is not the caller's
(ids of both tables assumed unique, as primary keys are). -/
theorem ownershipRows_eq_nil (st : RelState) (id : Nat) (callerEmail : String)
    (i : Itinerary) (t : Traveller)
    (hnodupI : (st.itineraries.map Itinerary.id).Nodup)
    (hnodupT : (st.travellers.map Traveller.id).Nodup)
    (hi : i ∈ st.itineraries) (hid : i.id = id)
    (ht : t ∈ st.travellers) (htid : t.id = i.traveller_id)
    (hne : t.email ≠ callerEmail) :
    ownershipRows st id callerEmail = [] := by
  unfold ownershipRows
  rw [List.map_eq_nil_iff, List.filter_eq_nil_iff]
  intro i' hi'
  simp only [Bool.and_eq_true, beq_iff_eq, List.any_eq_true, not_and]
  intro hid'
  have hii : i' = i := List.inj_on_of_nodup_map hnodupI hi' hi (by rw [hid', hid])
  subst hii
  rintro ⟨t', ht', htt⟩
  have htt' : t' = t := List.inj_on_of_nodup_map hnodupT ht' ht (by rw [htt.1, htid])
  exact hne (htt' ▸ htt.2)

/-- C1 counterexample: an authenticated PUT whose target itinerary exists
and is owned by someone else, but whose body fails validation (empty
title), is answered with 400, not 403: the claim does not hold for every
authenticated PUT request.  The row is still untouched. -/
theorem C1_counterexample :
    (∃ i ∈ RelState.itineraries ⟨[⟨1, "owner@example.com", "Owner"⟩],
        [⟨1, 1, "Trip", "Rome", "2024-05-01", "2024-05-05", "fun", "details"⟩], 2⟩, i.id = 1) ∧
    (∀ i ∈ RelState.itineraries ⟨[⟨1, "owner@example.com", "Owner"⟩],
        [⟨1, 1, "Trip", "Rome", "2024-05-01", "2024-05-05", "fun", "details"⟩], 2⟩,
      ∀ t ∈ RelState.travellers ⟨[⟨1, "owner@example.com", "Owner"⟩],
        [⟨1, 1, "Trip", "Rome", "2024-05-01", "2024-05-05", "fun", "details"⟩], 2⟩,
      t.id = i.traveller_id → t.email ≠ "mallory@example.com") ∧
    (putItinerary ⟨[⟨1, "owner@example.com", "Owner"⟩],
        [⟨1, 1, "Trip", "Rome", "2024-05-01", "2024-05-05", "fun", "details"⟩], 2⟩
      "mallory@example.com" 1 ⟨"", "Rome", "2024-05-01", "2024-05-05", "fun", "details"⟩).1.status
      = 400 ∧
    (putItinerary ⟨[⟨1, "owner@example.com", "Owner"⟩],
        [⟨1, 1, "Trip", "Rome", "2024-05-01", "2024-05-05", "fun", "details"⟩], 2⟩
      "mallory@example.com" 1 ⟨"", "Rome", "2024-05-01", "2024-05-05", "fun", "details"⟩).1.status
      ≠ 403 ∧
    (putItinerary ⟨[⟨1, "owner@example.com", "Owner"⟩],
        [⟨1, 1, "Trip", "Rome", "2024-05-01", "2024-05-05", "fun", "details"⟩], 2⟩
      "mallory@example.com" 1 ⟨"", "Rome", "2024-05-01", "2024-05-05", "fun", "details"⟩).2 =
      ⟨[⟨1, "owner@example.com", "Owner"⟩],
        [⟨1, 1, "Trip", "Rome", "2024-05-01", "2024-05-05", "fun", "details"⟩], 2⟩ := by
  decide

/-- C1 as amended: for every authenticated DELETE, and for every
authenticated PUT whose body passes validation, if the itinerary with the
given id exists but its owner's email differs from the caller's token
email, the response status is 403 and the itinerary row is neither
modified nor deleted (and no document-store cleanup is scheduled). -/
theorem C1_mutation_by_non_owner_403 (st : RelState) (callerEmail : String)
    (id : Nat) (b : ItineraryBody) (i : Itinerary) (t : Traveller)
    (hval : itineraryBodyInvalid b = false)
    (hnodupI : (st.itineraries.map Itinerary.id).Nodup)
    (hnodupT : (st.travellers.map Traveller.id).Nodup)
    (hi : i ∈ st.itineraries) (hid : i.id = id)
    (ht : t ∈ st.travellers) (htid : t.id = i.traveller_id)
    (hne : t.email ≠ callerEmail) :
    (putItinerary st callerEmail id b).1.status = 403 ∧
    (putItinerary st callerEmail id b).2 = st ∧
    (deleteItinerary st callerEmail id).1.status = 403 ∧
    (deleteItinerary st callerEmail id).2.1 = st ∧
    (deleteItinerary st callerEmail id).2.2 = none := by
  have hrows : ownershipRows st id callerEmail = [] :=
    ownershipRows_eq_nil st id callerEmail i t hnodupI hnodupT hi hid ht htid hne
  have hput : putItinerary st callerEmail id b =
      (⟨403, "You are not the owner of this itinerary."⟩, st) := by
    simp [putItinerary, hval, hrows]
  have hdel : deleteItinerary st callerEmail id =
      (⟨403, "You are not authorized to delete this itinerary."⟩, st, none) := by
    simp [deleteItinerary, hrows]
  exact ⟨by rw [hput], by rw [hput], by rw [hdel], by rw [hdel], by rw [hdel]⟩

/-- Witness for C1 as amended, at a one-row database and a caller who is
not the owner. -/
theorem C1_mutation_by_non_owner_403_witness :
    itineraryBodyInvalid ⟨"New", "Rome", "2024-05-01", "2024-05-05", "fun", "details"⟩ = false ∧
    (putItinerary ⟨[⟨1, "owner@example.com", "Owner"⟩],
        [⟨1, 1, "Trip", "Rome", "2024-05-01", "2024-05-05", "fun", "details"⟩], 2⟩
      "mallory@example.com" 1
      ⟨"New", "Rome", "2024-05-01", "2024-05-05", "fun", "details"⟩).1.status = 403 :=
  ⟨by decide,
    (C1_mutation_by_non_owner_403 ⟨[⟨1, "owner@example.com", "Owner"⟩],
        [⟨1, 1, "Trip", "Rome", "2024-05-01", "2024-05-05", "fun", "details"⟩], 2⟩
      "mallory@example.com" 1 ⟨"New", "Rome", "2024-05-01", "2024-05-05", "fun", "details"⟩
      ⟨1, 1, "Trip", "Rome", "2024-05-01", "2024-05-05", "fun", "details"⟩
      ⟨1, "owner@example.com", "Owner"⟩
      (by decide) (by decide) (by decide) (by decide) (by decide) (by decide) (by decide)
      (by decide)).1⟩

/-- C8 counterexample: an owner delete removes the row and the scheduled
cleanup removes the like and comment documents, but the `aiSuggestions`
record of the deleted itinerary survives — `deleteFirestoreData` never
touches that collection, so the deletion does not cascade to
AI-suggestion records. -/
theorem C8_counterexample :
    (deleteItinerary ⟨[⟨1, "owner@example.com", "Owner"⟩],
        [⟨1, 1, "Trip", "Rome", "2024-05-01", "2024-05-05", "fun", "details"⟩], 2⟩
      "owner@example.com" 1).1.status = 200 ∧
    (deleteItinerary ⟨[⟨1, "owner@example.com", "Owner"⟩],
        [⟨1, 1, "Trip", "Rome", "2024-05-01", "2024-05-05", "fun", "details"⟩], 2⟩
      "owner@example.com" 1).2.1.itineraries = [] ∧
    (deleteItinerary ⟨[⟨1, "owner@example.com", "Owner"⟩],
        [⟨1, 1, "Trip", "Rome", "2024-05-01", "2024-05-05", "fun", "details"⟩], 2⟩
      "owner@example.com" 1).2.2 = some "1" ∧
    (deleteFirestoreData ⟨[⟨"1", "fan@example.com", 5⟩],
        [⟨"1", "c1", "fan@example.com", "nice", 6⟩],
        [("1", ⟨"1", some "gemini-2.5-flash", "ok", some "STOP", [], some "Enjoy Rome"⟩)]⟩
      "1").likes = [] ∧
    (deleteFirestoreData ⟨[⟨"1", "fan@example.com", 5⟩],
        [⟨"1", "c1", "fan@example.com", "nice", 6⟩],
        [("1", ⟨"1", some "gemini-2.5-flash", "ok", some "STOP", [], some "Enjoy Rome"⟩)]⟩
      "1").comments = [] ∧
    (deleteFirestoreData ⟨[⟨"1", "fan@example.com", 5⟩],
        [⟨"1", "c1", "fan@example.com", "nice", 6⟩],
        [("1", ⟨"1", some "gemini-2.5-flash", "ok", some "STOP", [], some "Enjoy Rome"⟩)]⟩
      "1").aiSuggestions =
      [("1", ⟨"1", some "gemini-2.5-flash", "ok", some "STOP", [], some "Enjoy Rome"⟩)] := by
  decide

/-- C8 as amended: an owner delete removes the itinerary row from the
relational store and schedules the asynchronous Firestore cleanup, which
removes every like and comment document of that itinerary; the
AI-suggestion record is not deleted (the cleanup leaves `aiSuggestions`
unchanged). -/
theorem C8_delete_cascades_to_likes_and_comments (st : RelState) (fs : FsState)
    (callerEmail : String) (id : Nat) (i : Itinerary) (t : Traveller)
    (hi : i ∈ st.itineraries) (hid : i.id = id)
    (ht : t ∈ st.travellers) (htid : t.id = i.traveller_id)
    (heq : t.email = callerEmail) :
    (deleteItinerary st callerEmail id).1.status = 200 ∧
    (∀ j ∈ (deleteItinerary st callerEmail id).2.1.itineraries, j.id ≠ id) ∧
    (deleteItinerary st callerEmail id).2.2 = some (toString id) ∧
    (∀ e ∈ (deleteFirestoreData fs (toString id)).likes, e.itin ≠ toString id) ∧
    (∀ c ∈ (deleteFirestoreData fs (toString id)).comments, c.itin ≠ toString id) ∧
    (deleteFirestoreData fs (toString id)).aiSuggestions = fs.aiSuggestions := by
  have hpred : (i.id == id &&
      st.travellers.any (fun u => u.id == i.traveller_id && u.email == callerEmail)) = true := by
    simp only [Bool.and_eq_true, beq_iff_eq, List.any_eq_true]
    exact ⟨hid, t, ht, by simp [htid, heq]⟩
  have hfne : st.itineraries.filter (fun j =>
      j.id == id && st.travellers.any (fun u => u.id == j.traveller_id && u.email == callerEmail))
      ≠ [] :=
    List.ne_nil_of_mem (List.mem_filter.mpr ⟨hi, hpred⟩)
  have hrows_ne : ownershipRows st id callerEmail ≠ [] := by
    unfold ownershipRows
    simpa [List.map_eq_nil_iff] using hfne
  have hempty : (ownershipRows st id callerEmail).isEmpty = false := by
    cases h : ownershipRows st id callerEmail with
    | nil => exact absurd h hrows_ne
    | cons a l => rfl
  have haff : st.itineraries.countP (fun j => j.id == id) ≠ 0 := by
    have hpos : 0 < st.itineraries.countP (fun j => j.id == id) :=
      List.countP_pos_iff.mpr ⟨i, hi, by simp [hid]⟩
    omega
  have haffb : (st.itineraries.countP (fun j => j.id == id) == 0) = false := by
    simpa using haff
  have hdel : deleteItinerary st callerEmail id =
      (⟨200, s!"Itinerary ID {id} deleted successfully."⟩,
        { st with itineraries := st.itineraries.filter (fun j => j.id != id) },
        some (toString id)) := by
    simp [deleteItinerary, hempty, haffb]
  refine ⟨by rw [hdel], ?_, by rw [hdel], ?_, ?_, rfl⟩
  · rw [hdel]
    intro j hj
    have := List.of_mem_filter hj
    simpa using this
  · intro e he
    have := List.of_mem_filter he
    simpa using this
  · intro c hc
    have := List.of_mem_filter hc
    simpa using this

/-- Witness for C8 as amended, at a one-row database and its owner. -/
theorem C8_delete_cascades_to_likes_and_comments_witness :
    (⟨1, 1, "Trip", "Rome", "2024-05-01", "2024-05-05", "fun", "details"⟩ : Itinerary) ∈
      RelState.itineraries ⟨[⟨1, "owner@example.com", "Owner"⟩],
        [⟨1, 1, "Trip", "Rome", "2024-05-01", "2024-05-05", "fun", "details"⟩], 2⟩ ∧
    (deleteItinerary ⟨[⟨1, "owner@example.com", "Owner"⟩],
        [⟨1, 1, "Trip", "Rome", "2024-05-01", "2024-05-05", "fun", "details"⟩], 2⟩
      "owner@example.com" 1).1.status = 200 ∧
    (deleteFirestoreData ⟨[⟨"1", "fan@example.com", 5⟩], [],
        [("1", ⟨"1", none, "ok", none, [], some "x"⟩)]⟩ "1").aiSuggestions =
      [("1", ⟨"1", none, "ok", none, [], some "x"⟩)] :=
  ⟨by decide,
    (C8_delete_cascades_to_likes_and_comments ⟨[⟨1, "owner@example.com", "Owner"⟩],
        [⟨1, 1, "Trip", "Rome", "2024-05-01", "2024-05-05", "fun", "details"⟩], 2⟩
      ⟨[⟨"1", "fan@example.com", 5⟩], [], [("1", ⟨"1", none, "ok", none, [], some "x"⟩)]⟩
      "owner@example.com" 1
      ⟨1, 1, "Trip", "Rome", "2024-05-01", "2024-05-05", "fun", "details"⟩
      ⟨1, "owner@example.com", "Owner"⟩
      (by decide) (by decide) (by decide) (by decide) (by decide)).1,
    (C8_delete_cascades_to_likes_and_comments ⟨[⟨1, "owner@example.com", "Owner"⟩],
        [⟨1, 1, "Trip", "Rome", "2024-05-01", "2024-05-05", "fun", "details"⟩], 2⟩
      ⟨[⟨"1", "fan@example.com", 5⟩], [], [("1", ⟨"1", none, "ok", none, [], some "x"⟩)]⟩
      "owner@example.com" 1
      ⟨1, 1, "Trip", "Rome", "2024-05-01", "2024-05-05", "fun", "details"⟩
      ⟨1, "owner@example.com", "Owner"⟩
      (by decide) (by decide) (by decide) (by decide) (by decide)).2.2.2.2.2⟩

/-- C9 counterexample: underlying error detail does reach response
bodies.  When the database probe of `GET /health/db` fails, the handler
answers 500 with the driver error code (or, failing that, the message)
in the body; and when the generation test of `GET /api/diagnostics/ai`
throws, the handler answers 200 — not 500 — with the summarized error,
including its message, in the body. -/
theorem C9_counterexample :
    (healthDbHandler (.error ⟨some "ER_ACCESS_DENIED_ERROR",
        "Access denied for user app"⟩)).status = 500 ∧
    (healthDbHandler (.error ⟨some "ER_ACCESS_DENIED_ERROR",
        "Access denied for user app"⟩)).error = some "ER_ACCESS_DENIED_ERROR" ∧
    DbError.code ⟨some "ER_ACCESS_DENIED_ERROR", "Access denied for user app"⟩ =
      some "ER_ACCESS_DENIED_ERROR" ∧
    (diagnosticsAiCatch ⟨some "fetch failed", "TypeError: fetch failed", some "TypeError",
        none, none, none, none, some "at makeRequest"⟩).status = 200 ∧
    (diagnosticsAiCatch ⟨some "fetch failed", "TypeError: fetch failed", some "TypeError",
        none, none, none, none, some "at makeRequest"⟩).status ≠ 500 ∧
    (diagnosticsAiCatch ⟨some "fetch failed", "TypeError: fetch failed", some "TypeError",
        none, none, none, none, some "at makeRequest"⟩).error =
      some ⟨"TypeError", none, none, "fetch failed", none⟩ ∧
    CaughtError.message ⟨some "fetch failed", "TypeError: fetch failed", some "TypeError",
        none, none, none, none, some "at makeRequest"⟩ = some "fetch failed" := by
  decide

/-- C9 as amended: for every unclassified server, database, or storage
error raised inside a core API request handler, the response is status
500 with the handler's fixed generic message and carries no detail of
the error — shown for the shared catch shape of all fourteen handlers
(any two caught errors produce the same response) and in situ for
itinerary-creation insert errors (byte-identical responses and state) —
with exactly two exceptions: `GET /health/db` answers 500 with the
error's code (or its message when no code is present) in the body, and
`GET /api/diagnostics/ai` answers 200 with the summarized error (name,
status, code, message, cause) in the body; the stack is never read into
any response. -/
theorem C9_unclassified_errors_500 (route : HandlerRoute) (e1 e2 ediag : CaughtError)
    (edb eins1 eins2 : DbError) (s1 s2 : Option String)
    (st : RelState) (fs : FsState) (callerEmail : String) (b : ItineraryBody)
    (fg : FgOutcome) (activeModel : Option String) (trav : Traveller)
    (hval : itineraryBodyInvalid b = false)
    (ht : (st.travellers.filter (fun u => u.email == callerEmail)).head? = some trav) :
    handlerCatchResponse route e1 = handlerCatchResponse route e2 ∧
    (handlerCatchResponse route e1).status = 500 ∧
    (handlerCatchResponse route e1).message = catchMessage route ∧
    postItineraries st fs callerEmail b fg activeModel (some eins1) =
      postItineraries st fs callerEmail b fg activeModel (some eins2) ∧
    (postItineraries st fs callerEmail b fg activeModel (some eins1)).1.status = 500 ∧
    (postItineraries st fs callerEmail b fg activeModel (some eins1)).1.message =
      "Server error during itinerary creation." ∧
    (postItineraries st fs callerEmail b fg activeModel (some eins1)).2.1 = st ∧
    (postItineraries st fs callerEmail b fg activeModel (some eins1)).2.2.1 = fs ∧
    (healthDbHandler (.error edb)).status = 500 ∧
    (healthDbHandler (.error edb)).error = some (jsOrStr edb.code edb.message) ∧
    (diagnosticsAiCatch ediag).status = 200 ∧
    (diagnosticsAiCatch ediag).error = some (summarizeGeminiError ediag) ∧
    summarizeGeminiError { ediag with stack := s1 } =
      summarizeGeminiError { ediag with stack := s2 } ∧
    handlerCatchResponse route { e1 with stack := s1 } =
      handlerCatchResponse route { e1 with stack := s2 } := by
  have hpost : ∀ e0 : DbError, postItineraries st fs callerEmail b fg activeModel (some e0) =
      (⟨500, "Server error during itinerary creation.", none, none, none, none⟩, st, fs, false) := by
    intro e0
    simp [postItineraries, hval, ht]
  refine ⟨rfl, rfl, rfl, ?_, ?_, ?_, ?_, ?_, rfl, rfl, rfl, rfl, rfl, rfl⟩ <;> simp [hpost]

/-- Witness for C9 as amended at concrete errors and state: a database
error in the update handler's catch, an insert error during itinerary
creation, a failing health probe, and a generation error in the
diagnostics endpoint. -/
theorem C9_unclassified_errors_500_witness :
    itineraryBodyInvalid ⟨"Trip", "Rome", "2024-05-01", "2024-05-05", "fun", ""⟩ = false ∧
    ((RelState.travellers ⟨[⟨1, "u@example.com", "U"⟩], [], 1⟩).filter
      (fun u => u.email == "u@example.com")).head? = some ⟨1, "u@example.com", "U"⟩ ∧
    (handlerCatchResponse .updateItinerary ⟨some "connect ECONNRESET", "Error",
        some "Error", none, none, some "ECONNRESET", none, some "at Query"⟩).status = 500 ∧
    (diagnosticsAiCatch ⟨some "fetch failed", "TypeError: fetch failed", some "TypeError",
        none, none, none, none, some "at makeRequest"⟩).status = 200 :=
  ⟨by decide, by decide,
    (C9_unclassified_errors_500 .updateItinerary
      ⟨some "connect ECONNRESET", "Error", some "Error", none, none, some "ECONNRESET", none,
        some "at Query"⟩
      ⟨some "connect ECONNRESET", "Error", some "Error", none, none, some "ECONNRESET", none,
        some "at Query"⟩
      ⟨some "fetch failed", "TypeError: fetch failed", some "TypeError", none, none, none,
        none, some "at makeRequest"⟩
      ⟨some "ETIMEDOUT", "connect ETIMEDOUT"⟩ ⟨some "ETIMEDOUT", "connect ETIMEDOUT"⟩
      ⟨some "ETIMEDOUT", "connect ETIMEDOUT"⟩ none none
      ⟨[⟨1, "u@example.com", "U"⟩], [], 1⟩ ⟨[], [], []⟩ "u@example.com"
      ⟨"Trip", "Rome", "2024-05-01", "2024-05-05", "fun", ""⟩ .soft none
      ⟨1, "u@example.com", "U"⟩ (by decide) (by decide)).2.1,
    (C9_unclassified_errors_500 .updateItinerary
      ⟨some "connect ECONNRESET", "Error", some "Error", none, none, some "ECONNRESET", none,
        some "at Query"⟩
      ⟨some "connect ECONNRESET", "Error", some "Error", none, none, some "ECONNRESET", none,
        some "at Query"⟩
      ⟨some "fetch failed", "TypeError: fetch failed", some "TypeError", none, none, none,
        none, some "at makeRequest"⟩
      ⟨some "ETIMEDOUT", "connect ETIMEDOUT"⟩ ⟨some "ETIMEDOUT", "connect ETIMEDOUT"⟩
      ⟨some "ETIMEDOUT", "connect ETIMEDOUT"⟩ none none
      ⟨[⟨1, "u@example.com", "U"⟩], [], 1⟩ ⟨[], [], []⟩ "u@example.com"
      ⟨"Trip", "Rome", "2024-05-01", "2024-05-05", "fun", ""⟩ .soft none
      ⟨1, "u@example.com", "U"⟩ (by decide) (by decide)).2.2.2.2.2.2.2.2.2.2.1⟩

/-- C6: whenever the validation passes, the traveller exists and the row
insert succeeds, `POST /api/itineraries` answers 201 for every
foreground-AI outcome; its `ai_status` is one of `ok`, `no_suggestion`,
`error`, `queued`; and it is `queued` — with null suggestion and null
`ai_log_id` — exactly when the foreground AI attempt had not resolved
before the soft timeout fired. -/
theorem C6_create_alwys_201_with_ai_status (st : RelState) (fs : FsState)
    (callerEmail : String) (b : ItineraryBody) (fg : FgOutcome)
    (activeModel : Option String) (trav : Traveller)
    (hval : itineraryBodyInvalid b = false)
    (ht : (st.travellers.filter (fun u => u.email == callerEmail)).head? = some trav) :
    (postItineraries st fs callerEmail b fg activeModel none).1.status = 201 ∧
    ((postItineraries st fs callerEmail b fg activeModel none).1.ai_status = some "ok" ∨
     (postItineraries st fs callerEmail b fg activeModel none).1.ai_status = some "no_suggestion" ∨
     (postItineraries st fs callerEmail b fg activeModel none).1.ai_status = some "error" ∨
     (postItineraries st fs callerEmail b fg activeModel none).1.ai_status = some "queued") ∧
    ((postItineraries st fs callerEmail b fg activeModel none).1.ai_status = some "queued" ↔
      fg = FgOutcome.soft) ∧
    (fg = FgOutcome.soft →
      (postItineraries st fs callerEmail b fg activeModel none).1.suggestion = none ∧
      (postItineraries st fs callerEmail b fg activeModel none).1.ai_log_id = none) := by
  cases fg with
  | soft =>
    have hpost : postItineraries st fs callerEmail b .soft activeModel none =
        (⟨201, "Itinerary created successfully.", some st.nextId, none, some "queued", none⟩,
          { st with
            itineraries := st.itineraries ++
              [⟨st.nextId, trav.id, b.title, b.destination, b.start_date, b.end_date,
                b.short_description, b.detail_description⟩],
            nextId := st.nextId + 1 }, fs, true) := by
      simp [postItineraries, hval, ht]
    rw [hpost]
    simp
  | resolved s writeOk =>
    have hclass : classifyAiStatus s = "ok" ∨ classifyAiStatus s = "error" ∨
        classifyAiStatus s = "no_suggestion" := by
      unfold classifyAiStatus
      cases s.text with
      | some v => simp
      | none => cases h : s.meta.error.isSome <;> simp [h]
    have hclassq : classifyAiStatus s ≠ "queued" := by
      rcases hclass with h | h | h <;> rw [h] <;> decide
    cases writeOk with
    | true =>
      have hpost : (postItineraries st fs callerEmail b (.resolved s true) activeModel
          none).1 =
          ⟨201, "Itinerary created successfully.", some st.nextId, s.text,
            some (classifyAiStatus s), some (toString st.nextId)⟩ := by
        simp [postItineraries, hval, ht]
      rw [hpost]
      refine ⟨rfl, ?_, ?_, ?_⟩
      · rcases hclass with h | h | h <;> simp [h]
      · constructor
        · intro hq
          simp only [CreateResp.ai_status, Option.some.injEq] at hq
          exact absurd hq hclassq
        · intro hq
          exact absurd hq (by simp)
      · intro hq
        exact absurd hq (by simp)
    | false =>
      have hpost : (postItineraries st fs callerEmail b (.resolved s false) activeModel
          none).1 =
          ⟨201, "Itinerary created successfully.", some st.nextId, s.text,
            some "error", none⟩ := by
        simp [postItineraries, hval, ht]
      rw [hpost]
      refine ⟨rfl, by simp, ?_, ?_⟩
      · constructor
        · intro hq
          simp at hq
        · intro hq
          exact absurd hq (by simp)
      · intro hq
        exact absurd hq (by simp)

/-- Witness for C6 at a concrete state with a soft-timed-out foreground
attempt. -/
theorem C6_create_alwys_201_with_ai_status_witness :
    itineraryBodyInvalid ⟨"Trip", "Rome", "2024-05-01", "2024-05-05", "fun", ""⟩ = false ∧
    (postItineraries ⟨[⟨1, "u@example.com", "U"⟩], [], 1⟩ ⟨[], [], []⟩ "u@example.com"
        ⟨"Trip", "Rome", "2024-05-01", "2024-05-05", "fun", ""⟩ .soft none none).1.status = 201 ∧
    ((postItineraries ⟨[⟨1, "u@example.com", "U"⟩], [], 1⟩ ⟨[], [], []⟩ "u@example.com"
        ⟨"Trip", "Rome", "2024-05-01", "2024-05-05", "fun", ""⟩ .soft none
        none).1.ai_status = some "queued" ↔ (FgOutcome.soft = FgOutcome.soft)) :=
  ⟨by decide,
    (C6_create_alwys_201_with_ai_status ⟨[⟨1, "u@example.com", "U"⟩], [], 1⟩ ⟨[], [], []⟩
      "u@example.com" ⟨"Trip", "Rome", "2024-05-01", "2024-05-05", "fun", ""⟩ .soft none
      ⟨1, "u@example.com", "U"⟩ (by decide) (by decide)).1,
    (C6_create_alwys_201_with_ai_status ⟨[⟨1, "u@example.com", "U"⟩], [], 1⟩ ⟨[], [], []⟩
      "u@example.com" ⟨"Trip", "Rome", "2024-05-01", "2024-05-05", "fun", ""⟩ .soft none
      ⟨1, "u@example.com", "U"⟩ (by decide) (by decide)).2.2.1⟩

/-- Helper: the payload trace of the orchestrator, given resolved first and
second calls, as a function of the two retry conditions. -/
theorem traced_payloads (provider : Nat → GenPayload → GenOutcome)
    (primaryCap retryCap : Nat) (modelName : Option String) (r1 r2 : GenResult)
    (h1 : provider 0 ⟨.base, primaryCap⟩ = .success r1)
    (h2 : provider 1 ⟨.base, retryCap⟩ = .success r2) :
    (getGeminiSuggestionTraced true provider primaryCap retryCap modelName).2 =
      if jsTrim r1.text == "" || (r1.finishReason == some "MAX_TOKENS") then
        if jsTrim r2.text == "" then
          [⟨.base, primaryCap⟩, ⟨.base, retryCap⟩, ⟨.shorter, retryCap⟩]
        else [⟨.base, primaryCap⟩, ⟨.base, retryCap⟩]
      else [⟨.base, primaryCap⟩] := by
  cases hb1 : (jsTrim r1.text == "" || (r1.finishReason == some "MAX_TOKENS")) with
  | false =>
    simp [getGeminiSuggestionTraced, generateContentWithRetry, gcwrGo, h1, hb1]
  | true =>
    cases hb2 : (jsTrim r2.text == "") with
    | false =>
      simp [getGeminiSuggestionTraced, generateContentWithRetry, gcwrGo, h1, h2, hb1, hb2]
    | true =>
      rcases h3 : provider 2 ⟨.shorter, retryCap⟩ with r3 | m
      · simp [getGeminiSuggestionTraced, generateContentWithRetry, gcwrGo, h1, h2, hb1, hb2, h3]
      · cases hnet : isNetworkyBiz m <;>
          simp [getGeminiSuggestionTraced, generateContentWithRetry, gcwrGo, h1, h2, hb1, hb2,
            h3, hnet]

/-- C3: with the model ready, the orchestrator first issues the base
prompt with the primary output-token cap; given resolved responses, a
second request — the same base prompt with the larger retry cap — is
issued exactly when the first trimmed text is empty or its finish reason
is `MAX_TOKENS`; a third and final request — the shorter simplified
prompt — is issued exactly when the text is still empty after that; and
no invocation ever issues more than three requests. -/
theorem C3_attempt_sequence (provider : Nat → GenPayload → GenOutcome)
    (primaryCap retryCap : Nat) (modelName : Option String) (r1 r2 : GenResult)
    (h1 : provider 0 ⟨.base, primaryCap⟩ = .success r1)
    (h2 : provider 1 ⟨.base, retryCap⟩ = .success r2) :
    (getGeminiSuggestionTraced true provider primaryCap retryCap modelName).2.head? =
      some ⟨.base, primaryCap⟩ ∧
    (getGeminiSuggestionTraced true provider primaryCap retryCap modelName).2.length ≤ 3 ∧
    ((jsTrim r1.text = "" ∨ r1.finishReason = some "MAX_TOKENS") ↔
      (getGeminiSuggestionTraced true provider primaryCap retryCap modelName).2[1]? =
        some ⟨.base, retryCap⟩) ∧
    (((jsTrim r1.text = "" ∨ r1.finishReason = some "MAX_TOKENS") ∧ jsTrim r2.text = "") ↔
      (getGeminiSuggestionTraced true provider primaryCap retryCap modelName).2[2]? =
        some ⟨.shorter, retryCap⟩) ∧
    ((getGeminiSuggestionTraced true provider primaryCap retryCap modelName).2[2]? =
        some ⟨.shorter, retryCap⟩ →
      (getGeminiSuggestionTraced true provider primaryCap retryCap modelName).2.length = 3) := by
  rw [traced_payloads provider primaryCap retryCap modelName r1 r2 h1 h2]
  by_cases hc1 : jsTrim r1.text = "" ∨ r1.finishReason = some "MAX_TOKENS"
  · have hb1 : (jsTrim r1.text == "" || (r1.finishReason == some "MAX_TOKENS")) = true := by
      simpa [Bool.or_eq_true, beq_iff_eq] using hc1
    by_cases hc2 : jsTrim r2.text = ""
    · have hb2 : (jsTrim r2.text == "") = true := by simpa [beq_iff_eq] using hc2
      simp [hb1, hb2, hc1, hc2]
    · have hb2 : (jsTrim r2.text == "") = false := by simpa [beq_iff_eq] using hc2
      simp [hb1, hb2, hc1, hc2]
  · have hb1 : (jsTrim r1.text == "" || (r1.finishReason == some "MAX_TOKENS")) = false := by
      simpa [Bool.or_eq_true, beq_iff_eq] using hc1
    simp [hb1, hc1]

/-- Witness for C3: a provider that always resolves to empty text with
finish reason `MAX_TOKENS` drives the full three-request sequence. -/
theorem C3_attempt_sequence_witness :
    providerEmptyMaxTokens 0 ⟨.base, 640⟩ = .success ⟨"", some "MAX_TOKENS"⟩ ∧
    (getGeminiSuggestionTraced true providerEmptyMaxTokens 640 1024 none).2 =
      [⟨.base, 640⟩, ⟨.base, 1024⟩, ⟨.shorter, 1024⟩] ∧
    (getGeminiSuggestionTraced true providerEmptyMaxTokens 640 1024 none).2.length = 3 :=
  ⟨rfl, by decide,
    (C3_attempt_sequence providerEmptyMaxTokens 640 1024 none ⟨"", some "MAX_TOKENS"⟩
        ⟨"", some "MAX_TOKENS"⟩ rfl rfl).2.2.2.2 (by decide)⟩

/-- Helper: shifting a linear-backoff delay list by one attempt. -/
theorem range_map_backoff_shift (n i : Nat) :
    (List.range (n + 1)).map (fun j => 500 * (i + j)) =
      500 * i :: (List.range n).map (fun j => 500 * ((i + 1) + j)) := by
  rw [List.range_succ_eq_map]
  simp only [List.map_cons, List.map_map, Nat.add_zero]
  congr 1
  apply List.map_congr_left
  intro j _
  simp only [Function.comp_apply, Nat.succ_eq_add_one]
  omega

/-- Helper: when every available call fails with the same
network-classified message, the retry loop performs every attempt,
sleeping the linear backoff `500 * i` after each attempt `i`, and finally
rethrows the error. -/
theorem gcwrGo_all_network_failures (provider : Nat → GenPayload → GenOutcome)
    (payload : GenPayload) (m : String) (hm : isNetworkyBiz m = true) :
    ∀ r i idx lastErr, 0 < r → (∀ j, j < r → provider (idx + j) payload = .failure m) →
      gcwrGo provider payload r i idx lastErr =
        ⟨.error m, r, (List.range r).map (fun j => 500 * (i + j))⟩ := by
  intro r
  induction r with
  | zero => intro i idx lastErr h _; omega
  | succ r ih =>
    intro i idx lastErr _ hfail
    have h0 : provider idx payload = .failure m := by
      have := hfail 0 (by omega)
      simpa using this
    cases r with
    | zero =>
      simp [gcwrGo, h0, hm, List.range_succ]
    | succ r' =>
      have hrest := ih (i + 1) (idx + 1) (some m) (by omega) (fun j hj => by
        have := hfail (j + 1) (by omega)
        have harith : idx + (j + 1) = idx + 1 + j := by omega
        rwa [harith] at this)
      have hstep : gcwrGo provider payload (r' + 1 + 1) i idx lastErr =
          (match provider idx payload with
           | .success r => (⟨.ok r, 1, []⟩ : RetryTrace)
           | .failure m2 =>
             if isNetworkyBiz m2 then
               ⟨(gcwrGo provider payload (r' + 1) (i + 1) (idx + 1) (some m2)).outcome,
                (gcwrGo provider payload (r' + 1) (i + 1) (idx + 1) (some m2)).calls + 1,
                500 * i :: (gcwrGo provider payload (r' + 1) (i + 1) (idx + 1)
                  (some m2)).delays⟩
             else ⟨.error m2, 1, []⟩) := rfl
      rw [hstep, h0]
      simp only [hm, if_true]
      rw [hrest]
      rw [show (List.range (r' + 1 + 1)).map (fun j => 500 * (i + j)) =
            500 * i :: (List.range (r' + 1)).map (fun j => 500 * ((i + 1) + j)) from
        range_map_backoff_shift (r' + 1) i]

/-- C5: within a single generative-API call, failures classified as
network errors are retried up to the fixed `tries` count with a linear
backoff (`500 * i` after attempt `i`), while a non-network failure on the
first call is rethrown immediately after a single call with no backoff —
and when that happens on the orchestrator's first request, the invocation
records the error with no attempts and the classified status is
`error`. -/
theorem C5_network_retry_linear_backoff
    (provider providerNN : Nat → GenPayload → GenOutcome)
    (payload : GenPayload) (m mNN : String) (tries startIdx : Nat)
    (primaryCap retryCap : Nat) (modelName : Option String)
    (hm : isNetworkyBiz m = true) (htries : 0 < tries)
    (hfail : ∀ j, j < tries → provider (startIdx + j) payload = .failure m)
    (hmNN : isNetworkyBiz mNN = false)
    (hfirst : providerNN 0 ⟨.base, primaryCap⟩ = .failure mNN) :
    generateContentWithRetry provider payload startIdx tries =
      ⟨.error m, tries, (List.range tries).map (fun j => 500 * (1 + j))⟩ ∧
    (∀ tries2, 0 < tries2 →
      generateContentWithRetry providerNN ⟨.base, primaryCap⟩ 0 tries2 =
        ⟨.error mNN, 1, []⟩) ∧
    (getGeminiSuggestion true providerNN primaryCap retryCap modelName).text = none ∧
    (getGeminiSuggestion true providerNN primaryCap retryCap modelName).meta.error =
      some mNN ∧
    (getGeminiSuggestion true providerNN primaryCap retryCap modelName).meta.attempts = [] ∧
    classifyAiStatus (getGeminiSuggestion true providerNN primaryCap retryCap modelName) =
      "error" := by
  refine ⟨?_, ?_, ?_, ?_, ?_, ?_⟩
  · exact gcwrGo_all_network_failures provider payload m hm tries 1 startIdx none htries hfail
  · intro tries2 htries2
    cases tries2 with
    | zero => omega
    | succ t => simp [generateContentWithRetry, gcwrGo, hfirst, hmNN]
  all_goals
    simp [getGeminiSuggestion, getGeminiSuggestionTraced, generateContentWithRetry, gcwrGo,
      hfirst, hmNN, classifyAiStatus]

/-- Witness for C5 at a concrete network-failing provider (two attempts,
delays 500 and 1000 ms) and a concrete non-network failure (one call, no
delays, status `error`). -/
theorem C5_network_retry_linear_backoff_witness :
    isNetworkyBiz "connect ETIMEDOUT 10.0.0.1:443" = true ∧
    isNetworkyBiz "Invalid JSON payload received" = false ∧
    generateContentWithRetry (fun _ _ => .failure "connect ETIMEDOUT 10.0.0.1:443")
        ⟨.base, 640⟩ 0 2 =
      ⟨.error "connect ETIMEDOUT 10.0.0.1:443", 2,
        (List.range 2).map (fun j => 500 * (1 + j))⟩ ∧
    classifyAiStatus (getGeminiSuggestion true
        (fun _ _ => .failure "Invalid JSON payload received") 640 1024 none) = "error" :=
  ⟨by decide, by decide,
    (C5_network_retry_linear_backoff (fun _ _ => .failure "connect ETIMEDOUT 10.0.0.1:443")
        (fun _ _ => .failure "Invalid JSON payload received") ⟨.base, 640⟩
        "connect ETIMEDOUT 10.0.0.1:443" "Invalid JSON payload received" 2 0 640 1024 none
        (by decide) (by decide) (fun j _ => rfl) (by decide) rfl).1,
    (C5_network_retry_linear_backoff (fun _ _ => .failure "connect ETIMEDOUT 10.0.0.1:443")
        (fun _ _ => .failure "Invalid JSON payload received") ⟨.base, 640⟩
        "connect ETIMEDOUT 10.0.0.1:443" "Invalid JSON payload received" 2 0 640 1024 none
        (by decide) (by decide) (fun j _ => rfl) (by decide) rfl).2.2.2.2.2⟩

end TripBackend
